import Mathlib

/-!
Verification of the unseal-vault orchestrator (`main.go`).

Shallow embedding conventions:
- The external vault HTTP service is abstracted into oracles: each network
  round trip (status poll, unseal submission) is one oracle call, indexed by
  the number of calls made so far.  A transport failure, an unreadable body
  and an unparseable body all take the same early-return path in the Go code,
  so they are collapsed into one failure constructor.
- Go `(value, error)` returns become structures or `Except`; `error == nil`
  is `none` / `.ok`.
- The process-global flag variables (`outputFile`, `inputFile`,
  `k8sSecretNamespace`, `k8sSecretName`, ...) become an explicit `Config`
  record threaded to each function.
- The local filesystem and the Kubernetes secret store become an explicit
  `World` state record; `ioutil.WriteFile` / `ReadFile` and the secret
  Get/Create calls act on it.
- The unbounded readiness wait loop (`for { ... }` in `main`) is given a
  fuel parameter; theorems quantify over all sufficient fuels.
-/

namespace UnsealVault

/-- Mirrors Go `VaultStatus` (main.go lines 54-63): the decoded body of
`GET /v1/sys/seal-status`. -/
structure VaultStatus where
  Initialized : Bool
  Sealed : Bool
  T : Int
  N : Int
  Progress : Int
  ClusterName : String
  Version : String
  ClusterID : String
deriving DecidableEq, Repr

/-- Mirrors Go `VaultInitResponse` (main.go lines 70-73): the generated key
shares, in service order, and the root token. -/
structure VaultInitResponse where
  Keys : List String
  RootToken : String
deriving DecidableEq, Repr

/-- Outcome of one unseal submission (`PUT /v1/sys/unseal`), as seen by the
loop body of `unsealVault` (main.go lines 157-193).  `.fail` covers every
early-return error in the body: marshal error, request construction error,
transport error from `c.Do`, body read error and unmarshal error — all of
them take the same `return false, err` path.  `.ok sealed` is a decoded
`VaultUnsealResponse` with the given `Sealed` flag. -/
inductive UnsealReply where
  | fail
  | ok (sealed : Bool)
deriving DecidableEq, Repr

/-- The non-nil `error` values `unsealVault` can return: `.step i` is the
error propagated from submission number `i` (transport/protocol), and
`.exhausted` is `errors.New ...` returned after the loop ran out of keys
(main.go line 196). -/
inductive UnsealError where
  | step (i : Nat)
  | exhausted
deriving DecidableEq, Repr

/-- The observable result of a call to `unsealVault`: the returned pair
`(bool, error)` plus, as instrumentation, the number of unseal submissions
that were issued to the service. -/
structure UnsealRun where
  unsealed : Bool
  error : Option UnsealError
  submitted : Nat
deriving DecidableEq, Repr

/-- The loop `for i := 0; i < len(keys); i++` of `unsealVault`
(main.go lines 157-196), with the service behaviour abstracted as
`unsealService : submission index → reply`.  `i` is the current loop index
and the second argument is the number of keys not yet submitted; when it
reaches 0 the loop falls through to `return false, errors.New(...)`.
Inside the body: a failed submission returns `(false, err)`; a reply with
`Sealed == false` returns `(true, nil)`; a reply with `Sealed == true`
continues with the next key. -/
def unsealVaultLoop (unsealService : Nat → UnsealReply) : Nat → Nat → UnsealRun
  | _, 0 => ⟨false, some UnsealError.exhausted, 0⟩
  | i, r + 1 =>
    match unsealService i with
    | UnsealReply.fail => ⟨false, some (UnsealError.step i), 1⟩
    | UnsealReply.ok false => ⟨true, none, 1⟩
    | UnsealReply.ok true =>
      let rest := unsealVaultLoop unsealService (i + 1) r
      ⟨rest.unsealed, rest.error, rest.submitted + 1⟩

/-- Mirrors Go `unsealVault` (main.go lines 154-197).  Only the number of
keys steers the control flow (the key strings are payload sent to the
service, whose behaviour the oracle already captures per submission). -/
def unsealVault (unsealService : Nat → UnsealReply) (keys : List String) : UnsealRun :=
  unsealVaultLoop unsealService 0 keys.length

/-- One readiness poll: `vaultStatus` (main.go lines 125-152) either fails
(transport failure or malformed body — both return a non-nil error and are
indistinguishable to the caller) or yields a decoded `VaultStatus`.  The
oracle is indexed by the attempt number. -/
def PollService : Type := Nat → Option VaultStatus

/-- The readiness wait loop of `main` (main.go lines 304-312): call
`vaultStatus`; on error sleep one second and retry; on success break,
carrying the status.  Fuel bounds the number of iterations we unroll (the
Go loop is unbounded); the result pairs the total number of poll attempts
issued with the status snapshot carried out of the loop. -/
def pollLoop (pollService : Nat → Option VaultStatus) : Nat → Nat → Option (Nat × VaultStatus)
  | 0, _ => none
  | fuel + 1, i =>
    match pollService i with
    | some st => some (i + 1, st)
    | none => pollLoop pollService fuel (i + 1)

/-- The process-global flag variables (main.go lines 32-52), made an explicit
record. -/
structure Config where
  secretShares : Int
  secretThreshold : Int
  k8sSecret : Bool
  k8sInCluster : Bool
  k8sSecretNamespace : String
  k8sSecretName : String
  outputFile : String
  inputFile : String
deriving DecidableEq, Repr

/-- Contents of a byte store (a file, or a secret field) as far as this
program can tell them apart.  `json.Marshal` of a `VaultInitResponse` is
modelled at the information level: the wire document is determined exactly
by the key list and the root token (`.initDoc keys rootToken`), and
`json.Unmarshal` into a `VaultInitResponse` succeeds exactly on such
documents.  `.other` stands for any byte content that does not decode to a
`VaultInitResponse`. -/
inductive FileData where
  | initDoc (keys : List String) (rootToken : String)
  | other (raw : String)
deriving DecidableEq, Repr

/-- Model of `json.Marshal(&initResult)` (main.go lines 229, 164): total on
this record type (a struct of strings always marshals in Go). -/
def jsonMarshalInit (r : VaultInitResponse) : FileData :=
  FileData.initDoc r.Keys r.RootToken

/-- Model of `json.Unmarshal(b, &initResult)` (main.go lines 206, 220):
`none` is a non-nil decode error. -/
def jsonUnmarshalInit : FileData → Option VaultInitResponse
  | FileData.initDoc ks tok => some ⟨ks, tok⟩
  | FileData.other _ => none

/-- External mutable state the persistence functions act on: the local
filesystem (path → content and permission bits) and the Kubernetes secret
store (namespace → secret name → the bytes under the `"value"` key of the
secret's data map). -/
structure World where
  fs : String → Option (FileData × Nat)
  secrets : String → String → Option FileData

/-- The non-nil errors `readConf` can return. -/
inductive ReadErr where
  | fileNotFound
  | secretNotFound
  | badFormat
deriving DecidableEq, Repr

/-- The non-nil errors `writeConf` can return.  In the file branch
`ioutil.WriteFile` is modelled as always succeeding; in the secret branch
the Kubernetes `Create` call fails exactly when a secret of that name
already exists in the namespace (create, not upsert). -/
inductive WriteErr where
  | alreadyExists
deriving DecidableEq, Repr

/-- Reading and decoding one file entry: `ioutil.ReadFile` then
`json.Unmarshal` (main.go lines 202-209). -/
def readFileDoc : Option (FileData × Nat) → Except ReadErr VaultInitResponse
  | none => Except.error ReadErr.fileNotFound
  | some (d, _) =>
    match jsonUnmarshalInit d with
    | none => Except.error ReadErr.badFormat
    | some r => Except.ok r

/-- Mirrors Go `readConf` (main.go lines 199-226).  `client` is `true` when
the `*kubernetes.Clientset` is non-nil.  Note the file branch reads the
global `inputFile` (`cfg.inputFile`), not the `filePath` parameter, which is
never used. -/
def readConf (cfg : Config) (client : Bool) (filePath : String)
    (k8sNs : String) (k8sName : String) (w : World) :
    Except ReadErr VaultInitResponse :=
  match client with
  | false => readFileDoc (w.fs cfg.inputFile)
  | true =>
    match w.secrets k8sNs k8sName with
    | none => Except.error ReadErr.secretNotFound
    | some d =>
      match jsonUnmarshalInit d with
      | none => Except.error ReadErr.badFormat
      | some r => Except.ok r

/-- Mirrors Go `writeConf` (main.go lines 228-254).  The file branch calls
`ioutil.WriteFile(outputFile, b, 0640)` — global `outputFile`
(`cfg.outputFile`) and mode octal 640, the `filePath` parameter is never
used.  The secret branch issues a Kubernetes `Create` of a secret named
`k8sName` in `k8sNs` whose data holds the marshalled record under
`"value"`; `Create` fails (AlreadyExists) without mutating anything when
the name is taken. -/
def writeConf (cfg : Config) (client : Bool) (filePath : String)
    (k8sNs : String) (k8sName : String) (initResult : VaultInitResponse)
    (w : World) : Option WriteErr × World :=
  let b := jsonMarshalInit initResult
  match client with
  | false =>
    (none,
      { w with
        fs := fun p => if p = cfg.outputFile then some (b, 0o640) else w.fs p })
  | true =>
    match w.secrets k8sNs k8sName with
    | some _ => (some WriteErr.alreadyExists, w)
    | none =>
      (none,
        { w with
          secrets := fun ns n =>
            if ns = k8sNs then
              if n = k8sName then some b else w.secrets ns n
            else w.secrets ns n })

/-- How a run of `main` (after client construction) can end — each
constructor is one exit point of main.go lines 298-349. -/
inductive MainOutcome where
  | fatalInit
  | fatalSave
  | panicRead
  | fatalUnseal
  | exitFailUnseal
  | exitSuccess
deriving DecidableEq, Repr

/-- Observable result of a run of the orchestrator: how it ended, how many
status polls it issued, the status snapshot carried out of the readiness
wait, whether the unseal path (readConf then unsealVault) was entered, and
the final external state. -/
structure MainResult where
  outcome : MainOutcome
  polls : Nat
  snapshot : VaultStatus
  unsealEntered : Bool
  world : World

/-- The seal-check and unseal part of `main` (main.go lines 331-348):
branch on the (original) snapshot's `Sealed` flag; when sealed, `readConf`
(panic on error), then `unsealVault`; a non-nil unseal error is
`log.Fatalf("could not unseal vault: ...")`, otherwise `unsealed == false`
logs `"failed to unseal vault"` and exits 1, and `unsealed == true` falls
through to a success exit. -/
def mainSealPhase (cfg : Config) (client : Bool)
    (unsealService : Nat → UnsealReply) (polls : Nat) (status : VaultStatus)
    (w : World) : MainResult :=
  if status.Sealed then
    match readConf cfg client cfg.inputFile cfg.k8sSecretNamespace cfg.k8sSecretName w with
    | Except.error _ => ⟨MainOutcome.panicRead, polls, status, true, w⟩
    | Except.ok initResult =>
      let run := unsealVault unsealService initResult.Keys
      match run.error with
      | some _ => ⟨MainOutcome.fatalUnseal, polls, status, true, w⟩
      | none =>
        if run.unsealed then ⟨MainOutcome.exitSuccess, polls, status, true, w⟩
        else ⟨MainOutcome.exitFailUnseal, polls, status, true, w⟩
  else ⟨MainOutcome.exitSuccess, polls, status, false, w⟩

/-- Mirrors the orchestration of `main` (main.go lines 298-349), after flag
parsing and client construction: readiness wait (`pollLoop`), then — on the
single status snapshot it produced — the initialization branch
(`initService` abstracts `PUT /v1/sys/init`; error is
`log.Fatalf("could not initialize ...")`, success is persisted via
`writeConf`, whose error is `log.Fatalf("could not save ...")`), then the
seal check of `mainSealPhase`.  `none` means the readiness wait had not
succeeded within `fuel` attempts (the Go loop would still be running). -/
def mainFlow (cfg : Config) (client : Bool)
    (pollService : Nat → Option VaultStatus)
    (initService : Except Unit VaultInitResponse)
    (unsealService : Nat → UnsealReply) (w : World) (fuel : Nat) :
    Option MainResult :=
  match pollLoop pollService fuel 0 with
  | none => none
  | some (n, status) =>
    if status.Initialized = false then
      match initService with
      | Except.error _ => some ⟨MainOutcome.fatalInit, n, status, false, w⟩
      | Except.ok initResult =>
        match writeConf cfg client cfg.outputFile cfg.k8sSecretNamespace
            cfg.k8sSecretName initResult w with
        | (some _, w1) => some ⟨MainOutcome.fatalSave, n, status, false, w1⟩
        | (none, w1) => some (mainSealPhase cfg client unsealService n status w1)
    else some (mainSealPhase cfg client unsealService n status w)

/-- Formalisation of the claimed permission property, following the claim's
words (not the source): every set bit of the mode is an owner or group
permission bit (no other-permission bits, no special bits), and both owner
and group have read and write access.  In the standard Unix layout bit 8 is
owner-read, bit 7 owner-write, bit 5 group-read and bit 4 group-write. -/
def ownerGroupOnlyRW (m : Nat) : Prop :=
  m < 512 ∧ m % 8 = 0 ∧ m.testBit 8 = true ∧ m.testBit 7 = true ∧
    m.testBit 5 = true ∧ m.testBit 4 = true

/-- Sample concrete values used by witnesses. -/
def sampleStatus (ini sealed : Bool) : VaultStatus :=
  ⟨ini, sealed, 3, 5, 0, "", "", ""⟩

/-- Sample concrete configuration used by witnesses: default flag values
except that both persistence paths are the file `"f"`. -/
def sampleConfig : Config :=
  ⟨5, 3, false, false, "default", "vault-unseal", "f", "f"⟩

/-- Sample empty external state used by witnesses. -/
def emptyWorld : World :=
  ⟨fun _ => none, fun _ _ => none⟩

/-- Loop invariant for `unsealVaultLoop`: starting at index `s` with `r`
keys left, if the service answers `sealed == true` to the first `j`
submissions and `sealed == false` to submission `j` (with `j < r`), the
loop returns `(true, nil)` after exactly `j + 1` submissions. -/
lemma unsealVaultLoop_stops (unsealService : Nat → UnsealReply) :
    ∀ (j s r : Nat), j < r →
      (∀ i, i < j → unsealService (s + i) = UnsealReply.ok true) →
      unsealService (s + j) = UnsealReply.ok false →
      unsealVaultLoop unsealService s r = ⟨true, none, j + 1⟩ := by
  intro j
  induction j with
  | zero =>
    intro s r hr hbefore hat
    cases r with
    | zero => omega
    | succ r =>
      simp only [Nat.add_zero] at hat
      simp [unsealVaultLoop, hat]
  | succ j ih =>
    intro s r hr hbefore hat
    cases r with
    | zero => omega
    | succ r =>
      have h0 : unsealService s = UnsealReply.ok true := by
        simpa using hbefore 0 (by omega)
      have hrec : unsealVaultLoop unsealService (s + 1) r = ⟨true, none, j + 1⟩ := by
        refine ih (s + 1) r (by omega) ?_ ?_
        · intro i hi
          have := hbefore (i + 1) (by omega)
          simpa [Nat.add_assoc, Nat.add_comm 1 i] using this
        · have := hat
          simpa [Nat.add_assoc, Nat.add_comm 1 j] using this
      simp [unsealVaultLoop, h0, hrec]

/-- C2: for every key sequence and every service behaviour, as soon as some
submission's unseal response reports `sealed == false` (all earlier
submissions having been answered `sealed == true`), `unsealVault` returns
`(true, nil)` immediately, having issued exactly `j + 1` submissions — so
none of the remaining keys is submitted. -/
theorem unsealVault_stops_on_unsealed (unsealService : Nat → UnsealReply)
    (keys : List String) (j : Nat) (hj : j < keys.length)
    (hbefore : ∀ i, i < j → unsealService i = UnsealReply.ok true)
    (hat : unsealService j = UnsealReply.ok false) :
    unsealVault unsealService keys = ⟨true, none, j + 1⟩ := by
  unfold unsealVault
  refine unsealVaultLoop_stops unsealService j 0 keys.length hj ?_ ?_
  · intro i hi
    simpa using hbefore i hi
  · simpa using hat

/-- Witness for C2: three keys, the service reports unsealed on the second
submission; the call returns `(true, nil)` after two submissions and the
third key is never sent. -/
theorem unsealVault_stops_on_unsealed_witness :
    unsealVault (fun i => if i = 0 then UnsealReply.ok true else UnsealReply.ok false)
        ["a", "b", "c"] = ⟨true, none, 2⟩ :=
  unsealVault_stops_on_unsealed _ ["a", "b", "c"] 1 (by decide)
    (fun i hi => by
      have : i = 0 := by omega
      subst this
      rfl)
    (by rfl)

/-- C8: on an empty key sequence `unsealVault` issues no unseal submission
at all and returns `unsealed == false` (with the exhaustion error of
main.go line 196). -/
theorem unsealVault_empty_keys (unsealService : Nat → UnsealReply) :
    unsealVault unsealService [] = ⟨false, some UnsealError.exhausted, 0⟩ :=
  rfl

/-- C1 divergence: with one key and a service that still reports
`sealed == true` after the submission, `unsealVault` exhausts the keys and
returns `(false, errors.New("could not unseal vault"))` — the error is NOT
nil, contradicting the claimed non-error failure.  (The non-error pair
`(false, nil)` is unreachable: every `false` return of the Go function
carries a non-nil error, which makes the dedicated `"failed to unseal
vault"` branch of `main`, lines 344-346, dead code.) -/
theorem unsealVault_exhaustion_returns_error :
    unsealVault (fun _ => UnsealReply.ok true) ["k1"]
        = ⟨false, some UnsealError.exhausted, 1⟩ ∧
      (unsealVault (fun _ => UnsealReply.ok true) ["k1"]).error ≠ none := by
  refine ⟨rfl, ?_⟩
  decide

/-- C7 counterexample: at a concrete file-variant `writeConf` call the file
is written with mode octal 640, and octal 640 does NOT satisfy the claimed
property `ownerGroupOnlyRW` (group write, bit 4, is clear: the mode is
owner read-write, group read-ONLY). -/
theorem writeConf_mode_not_group_writable :
    ((writeConf sampleConfig false "p" "default" "vault-unseal"
          ⟨["k"], "tok"⟩ emptyWorld).2).fs "f"
        = some (jsonMarshalInit ⟨["k"], "tok"⟩, 0o640) ∧
      ¬ ownerGroupOnlyRW 0o640 := by
  constructor
  · simp [writeConf, sampleConfig, emptyWorld]
  · unfold ownerGroupOnlyRW
    decide

/-- C7 amended: the file-variant `writeConf` writes the marshalled record
to the configured output path with mode octal 640: no permission bit
outside owner and group is set (no other bits, no special bits), the owner
has read and write access, and the group has read access but not write
access. -/
theorem writeConf_file_mode_0640 (cfg : Config) (filePath k8sNs k8sName : String)
    (r : VaultInitResponse) (w : World) :
    ((writeConf cfg false filePath k8sNs k8sName r w).2).fs cfg.outputFile
        = some (jsonMarshalInit r, 0o640) ∧
      0o640 < 512 ∧ 0o640 % 8 = 0 ∧
      Nat.testBit 0o640 8 = true ∧ Nat.testBit 0o640 7 = true ∧
      Nat.testBit 0o640 5 = true ∧ Nat.testBit 0o640 4 = false ∧
      Nat.testBit 0o640 6 = false ∧ Nat.testBit 0o640 3 = false := by
  refine ⟨?_, by decide, by decide, by decide, by decide, by decide, by decide,
    by decide, by decide⟩
  simp [writeConf]

/-- C3: with the file variant and the configured input path equal to the
configured output path, a `writeConf` (which succeeds) followed by a
`readConf` on the resulting state returns exactly the record that was
saved — same key sequence in the same order, same root token. -/
theorem writeConf_readConf_roundtrip (cfg : Config)
    (p1 p2 k8sNs k8sName : String) (r : VaultInitResponse) (w : World)
    (h : cfg.inputFile = cfg.outputFile) :
    (writeConf cfg false p1 k8sNs k8sName r w).1 = none ∧
      readConf cfg false p2 k8sNs k8sName
          ((writeConf cfg false p1 k8sNs k8sName r w).2)
        = Except.ok r := by
  refine ⟨rfl, ?_⟩
  simp [readConf, writeConf, readFileDoc, h, jsonMarshalInit, jsonUnmarshalInit]

/-- Witness for C3: a concrete round trip through the file `"f"`. -/
theorem writeConf_readConf_roundtrip_witness :
    (writeConf sampleConfig false "x" "default" "vault-unseal"
        ⟨["a", "b"], "tok"⟩ emptyWorld).1 = none ∧
      readConf sampleConfig false "y" "default" "vault-unseal"
          ((writeConf sampleConfig false "x" "default" "vault-unseal"
              ⟨["a", "b"], "tok"⟩ emptyWorld).2)
        = Except.ok ⟨["a", "b"], "tok"⟩ :=
  writeConf_readConf_roundtrip sampleConfig "x" "y" "default" "vault-unseal"
    ⟨["a", "b"], "tok"⟩ emptyWorld rfl

/-- C9: in the remote (Kubernetes secret) variant, when a record already
exists under the configured namespace and name, `writeConf` returns the
AlreadyExists error of the `Create` call and leaves the store — in
particular the existing record's value — completely unchanged. -/
theorem writeConf_secret_create_only (cfg : Config)
    (filePath k8sNs k8sName : String) (r : VaultInitResponse) (w : World)
    (v : FileData) (h : w.secrets k8sNs k8sName = some v) :
    writeConf cfg true filePath k8sNs k8sName r w
      = (some WriteErr.alreadyExists, w) := by
  simp [writeConf, h]

/-- Witness for C9: a store already holding a secret named
`"vault-unseal"` in `"default"`; the write fails and the state is
returned unchanged. -/
theorem writeConf_secret_create_only_witness :
    writeConf sampleConfig true "p" "default" "vault-unseal"
        ⟨["k"], "tok"⟩
        ⟨fun _ => none, fun _ _ => some (FileData.other "old")⟩
      = (some WriteErr.alreadyExists,
          ⟨fun _ => none, fun _ _ => some (FileData.other "old")⟩) :=
  writeConf_secret_create_only sampleConfig "p" "default" "vault-unseal"
    ⟨["k"], "tok"⟩ ⟨fun _ => none, fun _ _ => some (FileData.other "old")⟩
    (FileData.other "old") rfl

/-- C10: `writeConf` and `readConf` ignore their `filePath` parameter
entirely — any two values of it give identical results — and in the file
variant the write goes to the global output path (`cfg.outputFile`, leaving
every other path untouched) while the read depends only on the file at the
global input path (`cfg.inputFile`). -/
theorem conf_ignores_filePath_param (cfg : Config) (client : Bool)
    (p1 p2 k8sNs k8sName : String) (r : VaultInitResponse) (w : World) :
    writeConf cfg client p1 k8sNs k8sName r w
        = writeConf cfg client p2 k8sNs k8sName r w ∧
      readConf cfg client p1 k8sNs k8sName w
        = readConf cfg client p2 k8sNs k8sName w ∧
      ((writeConf cfg false p1 k8sNs k8sName r w).2).fs
        = (fun q => if q = cfg.outputFile
            then some (jsonMarshalInit r, 0o640) else w.fs q) ∧
      readConf cfg false p1 k8sNs k8sName w = readFileDoc (w.fs cfg.inputFile) :=
  ⟨rfl, rfl, rfl, rfl⟩

/-- Loop invariant for `pollLoop`: starting at attempt index `s`, if the
next `K` polls fail and poll `s + K` yields `st`, then with any fuel above
`K` the loop stops exactly there, reporting `s + K + 1` total attempts and
carrying `st`. -/
lemma pollLoop_spec (pollService : Nat → Option VaultStatus) :
    ∀ (K s fuel : Nat) (st : VaultStatus),
      (∀ i, i < K → pollService (s + i) = none) →
      pollService (s + K) = some st → K < fuel →
      pollLoop pollService fuel s = some (s + K + 1, st) := by
  intro K
  induction K with
  | zero =>
    intro s fuel st _ hsucc hfuel
    cases fuel with
    | zero => omega
    | succ f =>
      simp only [Nat.add_zero] at hsucc
      simp [pollLoop, hsucc]
  | succ K ih =>
    intro s fuel st hfail hsucc hfuel
    cases fuel with
    | zero => omega
    | succ f =>
      have h0 : pollService s = none := by
        simpa using hfail 0 (by omega)
      have hrec : pollLoop pollService f (s + 1) = some (s + 1 + K + 1, st) := by
        refine ih (s + 1) f st ?_ ?_ (by omega)
        · intro i hi
          have := hfail (i + 1) (by omega)
          simpa [Nat.add_assoc, Nat.add_comm 1 i] using this
        · have := hsucc
          simpa [Nat.add_assoc, Nat.add_comm 1 K] using this
      have harith : s + 1 + K + 1 = s + (K + 1) + 1 := by omega
      rw [harith] at hrec
      simp [pollLoop, h0, hrec]

/-- C4: if the status endpoint fails the first `K` poll attempts (transport
failure and malformed body both surface as a non-nil error and are handled
identically) and succeeds on attempt `K`, then the readiness wait — run
with ANY sufficient unrolling budget, i.e. it never gives up — issues
exactly `K + 1` poll attempts and proceeds carrying the successful status
snapshot. -/
theorem readiness_wait_exactly_K_plus_1_polls
    (pollService : Nat → Option VaultStatus) (K : Nat) (st : VaultStatus)
    (hfail : ∀ i, i < K → pollService i = none)
    (hsucc : pollService K = some st) :
    ∀ fuel, K < fuel → pollLoop pollService fuel 0 = some (K + 1, st) := by
  intro fuel hfuel
  have := pollLoop_spec pollService K 0 fuel st
    (fun i hi => by simpa using hfail i hi) (by simpa using hsucc) hfuel
  simpa using this

/-- Witness for C4: a service failing the first two polls and succeeding on
the third; with budget 5 the wait issues exactly 3 attempts and carries the
status out. -/
theorem readiness_wait_exactly_K_plus_1_polls_witness :
    pollLoop (fun i => if i < 2 then none else some (sampleStatus true true)) 5 0
      = some (3, sampleStatus true true) :=
  readiness_wait_exactly_K_plus_1_polls _ 2 (sampleStatus true true)
    (fun i hi => if_pos hi) (if_neg (by omega)) 5 (by omega)

/-- Field facts about `mainSealPhase`: whatever branch is taken, it reports
the poll count and status snapshot it was handed, and it enters the unseal
path (readConf then unsealVault) exactly when that snapshot's `Sealed` flag
is set. -/
lemma mainSealPhase_fields (cfg : Config) (client : Bool)
    (unsealService : Nat → UnsealReply) (n : Nat) (st : VaultStatus)
    (w : World) :
    (mainSealPhase cfg client unsealService n st w).polls = n ∧
      (mainSealPhase cfg client unsealService n st w).snapshot = st ∧
      (mainSealPhase cfg client unsealService n st w).unsealEntered = st.Sealed := by
  unfold mainSealPhase
  by_cases hS : st.Sealed = true
  · rw [if_pos hS]
    rcases hR : readConf cfg client cfg.inputFile cfg.k8sSecretNamespace
        cfg.k8sSecretName w with e | ir
    · exact ⟨rfl, rfl, hS.symm⟩
    · dsimp only
      rcases hE : (unsealVault unsealService ir.Keys).error with _ | e
      · by_cases hU : (unsealVault unsealService ir.Keys).unsealed = true
        · rw [if_pos hU]
          exact ⟨rfl, rfl, hS.symm⟩
        · rw [if_neg hU]
          exact ⟨rfl, rfl, hS.symm⟩
      · exact ⟨rfl, rfl, hS.symm⟩
  · rw [if_neg hS]
    have hF : st.Sealed = false := by
      simpa using hS
    exact ⟨rfl, rfl, hF.symm⟩

/-- C6: for every run whose readiness wait yields the snapshot `st` after
`n` polls, the whole orchestration issues exactly those `n` polls (the
status is never re-polled after initialization or persistence), carries
that original snapshot, and — unless the run dies in the initialization or
persistence fatal exits before reaching the seal check — enters the unseal
path (Load then Unseal) if and only if the original snapshot has
`Sealed == true`. -/
theorem seal_check_uses_original_snapshot (cfg : Config) (client : Bool)
    (pollService : Nat → Option VaultStatus)
    (initService : Except Unit VaultInitResponse)
    (unsealService : Nat → UnsealReply) (w : World) (fuel n : Nat)
    (st : VaultStatus)
    (hpoll : pollLoop pollService fuel 0 = some (n, st)) :
    ∃ res, mainFlow cfg client pollService initService unsealService w fuel
        = some res ∧
      res.polls = n ∧ res.snapshot = st ∧
      (res.outcome ≠ MainOutcome.fatalInit →
        res.outcome ≠ MainOutcome.fatalSave →
        res.unsealEntered = st.Sealed) := by
  unfold mainFlow
  rw [hpoll]
  dsimp only
  by_cases hI : st.Initialized = false
  · rw [if_pos hI]
    rcases initService with e | ir
    · exact ⟨_, rfl, rfl, rfl, fun hni _ => absurd rfl hni⟩
    · dsimp only
      rcases hW : writeConf cfg client cfg.outputFile cfg.k8sSecretNamespace
          cfg.k8sSecretName ir w with ⟨oe, w1⟩
      rcases oe with _ | e
      · have hsp := mainSealPhase_fields cfg client unsealService n st w1
        exact ⟨_, rfl, hsp.1, hsp.2.1, fun _ _ => hsp.2.2⟩
      · exact ⟨_, rfl, rfl, rfl, fun _ hns => absurd rfl hns⟩
  · rw [if_neg hI]
    have hsp := mainSealPhase_fields cfg client unsealService n st w
    exact ⟨_, rfl, hsp.1, hsp.2.1, fun _ _ => hsp.2.2⟩

/-- Witness for C6: an already-initialized, sealed vault whose persisted
file holds two keys; the service stays available; the run makes exactly one
poll, carries the snapshot, and enters the unseal path. -/
theorem seal_check_uses_original_snapshot_witness :
    ∃ res, mainFlow sampleConfig false
          (fun _ => some (sampleStatus true true)) (Except.ok ⟨[], ""⟩)
          (fun _ => UnsealReply.ok false)
          ⟨fun p => if p = "f"
              then some (FileData.initDoc ["k1", "k2"] "tok", 0o640)
              else none,
            fun _ _ => none⟩ 1
        = some res ∧
      res.polls = 1 ∧ res.snapshot = sampleStatus true true ∧
      (res.outcome ≠ MainOutcome.fatalInit →
        res.outcome ≠ MainOutcome.fatalSave →
        res.unsealEntered = (sampleStatus true true).Sealed) :=
  seal_check_uses_original_snapshot sampleConfig false
    (fun _ => some (sampleStatus true true)) (Except.ok ⟨[], ""⟩)
    (fun _ => UnsealReply.ok false)
    ⟨fun p => if p = "f"
        then some (FileData.initDoc ["k1", "k2"] "tok", 0o640)
        else none,
      fun _ _ => none⟩ 1 1 (sampleStatus true true) rfl

/-- C5 divergence: an already-initialized, sealed vault with three
persisted keys and a service that still reports `sealed == true` after
every submission.  The run ends in the `log.Fatalf("could not unseal
vault: ...")` exit (the fatal-error path, main.go line 340), NOT in the
dedicated `"failed to unseal vault"` + `os.Exit(1)` branch (main.go lines
344-346) the claim describes — that branch is unreachable because
`unsealVault` never returns `(false, nil)`. -/
theorem main_exhaustion_takes_fatal_path :
    (mainFlow sampleConfig false (fun _ => some (sampleStatus true true))
          (Except.ok ⟨[], ""⟩) (fun _ => UnsealReply.ok true)
          ⟨fun p => if p = "f"
              then some (FileData.initDoc ["k1", "k2", "k3"] "tok", 0o640)
              else none,
            fun _ _ => none⟩ 1).map MainResult.outcome
        = some MainOutcome.fatalUnseal ∧
      (mainFlow sampleConfig false (fun _ => some (sampleStatus true true))
          (Except.ok ⟨[], ""⟩) (fun _ => UnsealReply.ok true)
          ⟨fun p => if p = "f"
              then some (FileData.initDoc ["k1", "k2", "k3"] "tok", 0o640)
              else none,
            fun _ _ => none⟩ 1).map MainResult.outcome
        ≠ some MainOutcome.exitFailUnseal := by
  constructor
  · rfl
  · decide

end UnsealVault
